import Mathlib

/-!
Verification of `doc/src/scripts/Vector3.cpp` (the kRPC C++ `Vector3` example).

The program is:

  int main() {
    krpc::Client conn = krpc::connect();
    SpaceCenter sc(&conn);
    std::tuple<double,double,double> v = sc.active_vessel().flight().prograde();
    std::cout << std::get<0>(v) << " "
              << std::get<1>(v) << " "
              << std::get<2>(v) << std::endl;
  }

We embed it as a four-statement straight-line program interpreted against a
`Service` value describing the behaviour of the remote kRPC service
(whether connecting succeeds, whether the remote fetch succeeds, and which
vector it returns).  Each executed operation appends an `Event` to a trace;
a run ends either in a normal process exit or in a crash (the C++ program
has no handlers, so any library exception terminates the process).

Doubles are modelled by their exact rational values; `std::cout`'s default
formatting of a `double` (precision 6, `defaultfloat`, i.e. printf `%g`)
is modelled by `fmtDouble` below.
-/

/-- Exact value of an IEEE-754 double, modelled as a rational number. -/
abbrev DoubleVal := ℚ

/-- The three-component vector returned by `prograde()`
(`std::tuple<double,double,double>` in the source). -/
structure Vec3 where
  x : DoubleVal
  y : DoubleVal
  z : DoubleVal
  deriving DecidableEq

/-- Modelled from the spec: behaviour of the external remote kRPC service
(the client library and server are not under `src/`).  `connectOk` says
whether `krpc::connect()` succeeds; `fetchOk` whether the single synchronous
remote request issued by `active_vessel().flight().prograde()` succeeds;
`prograde` is the vector that request returns. -/
structure Service where
  connectOk : Bool
  fetchOk : Bool
  prograde : Vec3
  deriving DecidableEq

/-- Observable events of a run: a connection being opened, a synchronous
remote request (with its name), and a write to standard output. -/
inductive Event where
  | connect : Event
  | request : String → Event
  | write : String → Event
  deriving DecidableEq

/-- Local state of `main` while it runs: whether `conn` holds an open
connection, whether `sc` has been constructed, the value of `v` once
fetched, and the trace of events so far. -/
structure ProgState where
  connOpen : Bool
  scMade : Bool
  v : Option Vec3
  trace : List Event
  deriving DecidableEq

/-- How a run ends: a normal process exit with a status code, or a crash
from an unhandled failure. -/
inductive Outcome where
  | exited : ℕ → Outcome
  | crashed : Outcome
  deriving DecidableEq

/-- A completed run: the event trace and how the process ended. -/
structure Run where
  trace : List Event
  outcome : Outcome
  deriving DecidableEq

/-- The four statements of `main` (Vector3.cpp lines 8-13). -/
inductive Stmt where
  | connectStmt : Stmt
  | mkSpaceCenter : Stmt
  | fetchPrograde : Stmt
  | printVector : Stmt
  deriving DecidableEq

/-! ## Formatting of doubles

`std::cout << d` with default stream state formats a `double` with
`defaultfloat` and precision 6, i.e. like printf `%g`: round to six
significant decimal digits, drop trailing zeros, and use scientific
notation when the decimal exponent is below -4 or at least 6.  The
functions below implement that on the exact rational value. -/

/-- Fuelled base-10 floor logarithm: `natLog10 fuel n` is the number of
digits of `n` minus one, provided `fuel` is at least that. -/
def natLog10 : ℕ → ℕ → ℕ
  | 0, _ => 0
  | fuel + 1, n => if n < 10 then 0 else natLog10 fuel (n / 10) + 1

/-- Smallest `k` with `c ≤ 10 ^ k`. -/
def natClog10 (c : ℕ) : ℕ := if c ≤ 1 then 0 else natLog10 (c - 1) (c - 1) + 1

/-- Remove trailing decimal zeros of a positive natural (with fuel). -/
def stripZeros : ℕ → ℕ → ℕ
  | 0, d => d
  | fuel + 1, d => if d % 10 = 0 ∧ 0 < d then stripZeros fuel (d / 10) else d

/-- The character for decimal digit `d`. -/
def digitChar (d : ℕ) : Char := Char.ofNat (48 + d)

/-- Decimal digits of `n`, most significant first (with fuel). -/
def digitsAux : ℕ → ℕ → List Char
  | 0, _ => []
  | fuel + 1, n => if n = 0 then [] else digitsAux fuel (n / 10) ++ [digitChar (n % 10)]

/-- Decimal digit characters of a natural number. -/
def natToChars (n : ℕ) : List Char :=
  if n = 0 then [digitChar 0] else digitsAux (n + 1) n

/-- Format a `double` (given by its exact rational value `q.num / q.den`)
the way `std::ostream` does with default flags: `%g` with precision 6:
round to six significant digits, drop trailing zeros, scientific notation
when the decimal exponent is below -4 or at least 6.  All arithmetic is on
the integer numerator and denominator.  `e0` is the decimal exponent of
`|q|` (the unique `e` with `10 ^ e ≤ |q| < 10 ^ (e+1)`); `d0` is `|q|`
rounded to an integer after scaling to six digits. -/
def fmtDouble (q : ℚ) : String :=
  if q.num = 0 then String.mk [digitChar 0]
  else
    let sign : List Char := if q.num < 0 then ['-'] else []
    let n := q.num.natAbs
    let den := q.den
    let e0 : ℤ :=
      if den ≤ n then ((natLog10 (n / den) (n / den) : ℕ) : ℤ)
      else -((natClog10 ((den + n - 1) / n) : ℕ) : ℤ)
    let N := if 0 ≤ 5 - e0 then n * 10 ^ (5 - e0).toNat else n
    let D := if 0 ≤ 5 - e0 then den else den * 10 ^ (e0 - 5).toNat
    let d0 := (2 * N + D) / (2 * D)
    let d := if d0 = 1000000 then 100000 else d0
    let e := if d0 = 1000000 then e0 + 1 else e0
    let ds := natToChars (stripZeros 6 d)
    let L : ℤ := (ds.length : ℤ)
    let body :=
      if -4 ≤ e ∧ e < 6 then
        if 0 ≤ e then
          if L ≤ e + 1 then ds ++ List.replicate (e + 1 - L).toNat (digitChar 0)
          else ds.take (e + 1).toNat ++ ['.'] ++ ds.drop (e + 1).toNat
        else [digitChar 0, '.'] ++ List.replicate (-e - 1).toNat (digitChar 0) ++ ds
      else
        let mantissa :=
          match ds with
          | [] => [digitChar 0]
          | c :: rest => if rest = [] then [c] else c :: '.' :: rest
        let esign : Char := if e < 0 then '-' else '+'
        let eabs := e.natAbs
        let echars := if eabs < 10 then digitChar 0 :: natToChars eabs else natToChars eabs
        mantissa ++ ['e', esign] ++ echars
    String.mk (sign ++ body)

/-- The text written by lines 11-13 of the source: the three components,
space separated, followed by the newline of `std::endl`. -/
def printVec (v : Vec3) : String :=
  fmtDouble v.x ++ " " ++ fmtDouble v.y ++ " " ++ fmtDouble v.z ++ "\n"

/-! ## Semantics of `main` -/

/-- One statement of `main`, executed against the service.  `none` means the
statement raised an unhandled failure (the program installs no handlers, so
this terminates the process).  Line by line:
line 8 `krpc::Client conn = krpc::connect();` opens the connection or fails;
line 9 `SpaceCenter sc(&conn);` is a purely local construction;
line 10 fetches the prograde vector with the single synchronous remote
request (modelled from the spec: the client library is not under `src/`,
and the spec states one synchronous request fetches the vector);
lines 11-13 write the formatted components to standard output. -/
def execStmt (svc : Service) : Stmt → ProgState → Option ProgState
  | .connectStmt, st =>
      if svc.connectOk then
        some { st with connOpen := true, trace := st.trace ++ [Event.connect] }
      else none
  | .mkSpaceCenter, st =>
      if st.connOpen then some { st with scMade := true } else none
  | .fetchPrograde, st =>
      if st.scMade then
        if svc.fetchOk then
          some { st with v := some svc.prograde,
                         trace := st.trace ++ [Event.request "Flight.get_Prograde"] }
        else none
      else none
  | .printVector, st =>
      match st.v with
      | some vec => some { st with trace := st.trace ++ [Event.write (printVec vec)] }
      | none => none

/-- The body of `main`: its four statements in source order. -/
def mainStmts : List Stmt :=
  [Stmt.connectStmt, Stmt.mkSpaceCenter, Stmt.fetchPrograde, Stmt.printVector]

/-- State at entry of `main`: no connection, nothing fetched, empty trace. -/
def initState : ProgState := ⟨false, false, none, []⟩

/-- Run a statement list to completion.  Falling off the end of `main` is a
normal exit with status 0 (the C++ rule for `main` without a return); an
unhandled failure ends the process as a crash. -/
def exec (svc : Service) : List Stmt → ProgState → Run
  | [], st => ⟨st.trace, Outcome.exited 0⟩
  | stmt :: rest, st =>
      match execStmt svc stmt st with
      | some st2 => exec svc rest st2
      | none => ⟨st.trace, Outcome.crashed⟩

/-- The whole program: `main` run against a given service behaviour. -/
def mainRun (svc : Service) : Run := exec svc mainStmts initState

/-- Everything a trace wrote to standard output, in order. -/
def stdoutOf (tr : List Event) : String :=
  String.mk (tr.foldr (fun e acc => match e with | Event.write s => s.data ++ acc | _ => acc) [])

/-- Whether an event is a remote request. -/
def isRequest : Event → Bool
  | Event.request _ => true
  | _ => false

/-- Phase of an event: connecting comes first, requests second, writes last. -/
def eventRank : Event → ℕ
  | Event.connect => 0
  | Event.request _ => 1
  | Event.write _ => 2

/-! ## Small-step view

For the termination and sequencing claims we also give `main` a small-step
semantics on configurations and show it agrees with the deterministic step
function. -/

/-- A configuration: the statements still to run with the current local
state, or a finished run. -/
inductive Config where
  | running : List Stmt → ProgState → Config
  | halted : Run → Config
  deriving DecidableEq

/-- The step function: one statement per step; finished configurations are
fixed points. -/
def step (svc : Service) : Config → Config
  | .running [] st => .halted ⟨st.trace, Outcome.exited 0⟩
  | .running (stmt :: rest) st =>
      match execStmt svc stmt st with
      | some st2 => .running rest st2
      | none => .halted ⟨st.trace, Outcome.crashed⟩
  | .halted r => .halted r

/-- Whether a configuration is a finished run. -/
def Config.isHalted : Config → Bool
  | .halted _ => true
  | _ => false

/-- The small-step transition relation of the program: a single thread of
control executes the next statement, blocking until its result (or its
failure) is available before the next step can fire. -/
inductive Step (svc : Service) : Config → Config → Prop where
  | finish (st : ProgState) :
      Step svc (.running [] st) (.halted ⟨st.trace, Outcome.exited 0⟩)
  | okStep (stmt : Stmt) (rest : List Stmt) (st st2 : ProgState) :
      execStmt svc stmt st = some st2 →
      Step svc (.running (stmt :: rest) st) (.running rest st2)
  | failStep (stmt : Stmt) (rest : List Stmt) (st : ProgState) :
      execStmt svc stmt st = none →
      Step svc (.running (stmt :: rest) st) (.halted ⟨st.trace, Outcome.crashed⟩)

/-! ## Concrete values used by the witnesses -/

/-- A service whose connection and fetch both succeed. -/
def svcOkW : Service := ⟨true, true, ⟨mkRat 1 1, mkRat 5 2, mkRat 3 1⟩⟩

/-- A service whose connection fails. -/
def svcFailW : Service := ⟨false, true, ⟨mkRat 1 1, mkRat 5 2, mkRat 3 1⟩⟩

/-- A second succeeding service returning the same vector as `svcOkW`. -/
def svcOkW2 : Service := ⟨true, true, ⟨mkRat 1 1, mkRat 5 2, mkRat 3 1⟩⟩

/-- The state after the first step of `main` under `svcOkW`. -/
def stW : ProgState := ⟨true, false, none, [Event.connect]⟩

/-- The statements remaining after the first step of `main`. -/
def restW : List Stmt := [Stmt.mkSpaceCenter, Stmt.fetchPrograde, Stmt.printVector]

/-! ## Run lemmas -/

/-- A run in which the connection and the fetch both succeed: connect, one
request, one write, normal exit. -/
theorem mainRun_ok (svc : Service) (hc : svc.connectOk = true)
    (hf : svc.fetchOk = true) :
    mainRun svc = ⟨[Event.connect, Event.request "Flight.get_Prograde",
        Event.write (printVec svc.prograde)], Outcome.exited 0⟩ := by
  rcases svc with ⟨co, fo, pv⟩
  cases co
  · exact Bool.noConfusion hc
  · cases fo
    · exact Bool.noConfusion hf
    · rfl

/-- A run in which connecting fails: empty trace, crash. -/
theorem mainRun_connectFail (svc : Service) (hc : svc.connectOk = false) :
    mainRun svc = ⟨[], Outcome.crashed⟩ := by
  rcases svc with ⟨co, fo, pv⟩
  cases co
  · rfl
  · exact Bool.noConfusion hc

/-- A run in which the remote fetch fails: only the connection happened,
then a crash. -/
theorem mainRun_fetchFail (svc : Service) (hc : svc.connectOk = true)
    (hf : svc.fetchOk = false) :
    mainRun svc = ⟨[Event.connect], Outcome.crashed⟩ := by
  rcases svc with ⟨co, fo, pv⟩
  cases co
  · exact Bool.noConfusion hc
  · cases fo
    · rfl
    · exact Bool.noConfusion hf

/-! ## The claims -/

/-- C1: whenever the remote service is reachable and both the connection and
the fetch succeed with prograde vector (a, b, c), the program writes exactly
the three components a, b, c, in that order, space separated and followed by
a newline, each component being passed verbatim from the remote call to the
output statement (formatted by the stream, not otherwise transformed). -/
theorem c1_output (svc : Service) (hc : svc.connectOk = true)
    (hf : svc.fetchOk = true) :
    stdoutOf (mainRun svc).trace =
      fmtDouble svc.prograde.x ++ " " ++ fmtDouble svc.prograde.y ++ " " ++
        fmtDouble svc.prograde.z ++ "\n" := by
  rw [mainRun_ok svc hc hf]
  show String.mk ((printVec svc.prograde).data ++ []) = _
  rw [List.append_nil]
  rfl

/-- Witness for C1 at a concrete service. -/
theorem c1_output_witness :
    svcOkW.connectOk = true ∧ svcOkW.fetchOk = true ∧
      stdoutOf (mainRun svcOkW).trace = "1 2.5 3\n" :=
  ⟨rfl, rfl, by rw [c1_output svcOkW rfl rfl]; decide⟩

/-- C2: every successful run opens exactly one connection and issues exactly
one remote request, the single request fetching the vector; the connection
is used for no other request. -/
theorem c2_single_request (svc : Service)
    (h : (mainRun svc).outcome = Outcome.exited 0) :
    (mainRun svc).trace.count Event.connect = 1 ∧
      ((mainRun svc).trace.filter isRequest).length = 1 ∧
      (mainRun svc).trace.filter isRequest = [Event.request "Flight.get_Prograde"] := by
  rcases svc with ⟨co, fo, pv⟩
  cases co
  · rw [mainRun_connectFail _ rfl] at h
    exact Outcome.noConfusion h
  · cases fo
    · rw [mainRun_fetchFail _ rfl rfl] at h
      exact Outcome.noConfusion h
    · rw [mainRun_ok _ rfl rfl]
      exact ⟨rfl, rfl, rfl⟩

/-- Witness for C2 at a concrete service. -/
theorem c2_single_request_witness :
    (mainRun svcOkW).outcome = Outcome.exited 0 ∧
      (mainRun svcOkW).trace.count Event.connect = 1 :=
  ⟨rfl, (c2_single_request svcOkW rfl).1⟩

/-- C3: if connecting or the remote call fails, the failure propagates
unhandled and the process crashes: no retry (at most one connect event and
one request event ever happened), no recovery, and nothing at all written
to standard output. -/
theorem c3_failure_propagates (svc : Service)
    (h : svc.connectOk = false ∨ svc.fetchOk = false) :
    (mainRun svc).outcome = Outcome.crashed ∧
      stdoutOf (mainRun svc).trace = "" ∧
      (mainRun svc).trace.count Event.connect ≤ 1 ∧
      ((mainRun svc).trace.filter isRequest).length ≤ 1 := by
  rcases svc with ⟨co, fo, pv⟩
  cases co
  · rw [mainRun_connectFail _ rfl]
    exact ⟨rfl, by decide, by decide, by decide⟩
  · cases fo
    · rw [mainRun_fetchFail _ rfl rfl]
      exact ⟨rfl, by decide, by decide, by decide⟩
    · rcases h with h | h <;> exact Bool.noConfusion h

/-- Witness for C3 at a concrete failing service. -/
theorem c3_failure_propagates_witness :
    (svcFailW.connectOk = false ∨ svcFailW.fetchOk = false) ∧
      (mainRun svcFailW).outcome = Outcome.crashed :=
  ⟨Or.inl rfl, (c3_failure_propagates svcFailW (Or.inl rfl)).1⟩

/-- C4: when the connection and the remote fetch succeed, the process exits
normally with status code 0. -/
theorem c4_exit_zero (svc : Service) (hc : svc.connectOk = true)
    (hf : svc.fetchOk = true) :
    (mainRun svc).outcome = Outcome.exited 0 := by
  rw [mainRun_ok svc hc hf]

/-- Witness for C4 at a concrete service. -/
theorem c4_exit_zero_witness :
    svcOkW.connectOk = true ∧ svcOkW.fetchOk = true ∧
      (mainRun svcOkW).outcome = Outcome.exited 0 :=
  ⟨rfl, rfl, c4_exit_zero svcOkW rfl rfl⟩

/-- C5: every run is one linear sequence: the connection event precedes
every remote request event, and every request event precedes every write to
standard output; no other kind of event occurs and no output is written
before the fetch completed. -/
theorem c5_linear_order (svc : Service) :
    List.Pairwise (fun a b => eventRank a ≤ eventRank b) (mainRun svc).trace := by
  rcases svc with ⟨co, fo, pv⟩
  cases co
  · rw [mainRun_connectFail _ rfl]
    simp
  · cases fo
    · rw [mainRun_fetchFail _ rfl rfl]
      simp
    · rw [mainRun_ok _ rfl rfl]
      norm_num [List.pairwise_cons, eventRank]

/-- C6: the components are printed with the stream's default six significant
digit formatting, so the printed text is not a full-precision rendering:
a seven-digit value is rounded, and two distinct vectors (here differing by
2 ^ -20 in the first component) yield byte-identical output. -/
theorem c6_lossy_format :
    fmtDouble (mkRat 1234567 1000000) = "1.23457" ∧
      ∃ v1 v2 : Vec3, v1 ≠ v2 ∧
        stdoutOf (mainRun ⟨true, true, v1⟩).trace =
          stdoutOf (mainRun ⟨true, true, v2⟩).trace := by
  exact ⟨by decide, ⟨mkRat 1 1, mkRat 0 1, mkRat 0 1⟩, ⟨mkRat 1048577 1048576, mkRat 0 1, mkRat 0 1⟩,
    by decide, by decide⟩

/-- C7: the program is deterministic in the service response: two successful
runs whose remote calls return the same vector write byte-identical text to
standard output. -/
theorem c7_deterministic (s1 s2 : Service)
    (h1c : s1.connectOk = true) (h1f : s1.fetchOk = true)
    (h2c : s2.connectOk = true) (h2f : s2.fetchOk = true)
    (hv : s1.prograde = s2.prograde) :
    stdoutOf (mainRun s1).trace = stdoutOf (mainRun s2).trace := by
  rw [mainRun_ok s1 h1c h1f, mainRun_ok s2 h2c h2f, hv]

/-- Witness for C7 at two concrete services. -/
theorem c7_deterministic_witness :
    svcOkW.connectOk = true ∧ svcOkW2.connectOk = true ∧
      svcOkW.prograde = svcOkW2.prograde ∧
      stdoutOf (mainRun svcOkW).trace = stdoutOf (mainRun svcOkW2).trace :=
  ⟨rfl, rfl, rfl, c7_deterministic svcOkW svcOkW2 rfl rfl rfl rfl rfl⟩

/-- C8: under the precondition that every call returns (each statement of
the model yields either a result or a failure), the straight-line `main`
always terminates: five steps from the initial configuration always reach a
halted configuration, whatever the service does. -/
theorem c8_terminates (svc : Service) :
    Config.isHalted ((step svc)^[5] (Config.running mainStmts initState)) = true := by
  rcases svc with ⟨co, fo, pv⟩
  cases co <;> cases fo <;> rfl

/-- C9: execution is single-threaded and fully synchronous: a configuration
holds a single thread of control, each step completes its statement (result
or failure) before the next step is enabled, and the transition relation is
deterministic, so no two different steps are ever enabled at once and no
interleaving exists. -/
theorem c9_deterministic_step (svc : Service) (c c1 c2 : Config)
    (h1 : Step svc c c1) (h2 : Step svc c c2) : c1 = c2 := by
  cases h1 <;> cases h2 <;> simp_all

/-- Witness for C9: the first step of a concrete run, and its uniqueness
applied to itself. -/
theorem c9_deterministic_step_witness :
    Step svcOkW (Config.running mainStmts initState) (Config.running restW stW) ∧
      Config.running restW stW = Config.running restW stW := by
  have d : Step svcOkW (Config.running mainStmts initState) (Config.running restW stW) :=
    Step.okStep Stmt.connectStmt restW initState stW (by decide)
  exact ⟨d, c9_deterministic_step svcOkW (Config.running mainStmts initState) _ _ d d⟩

/-- Witness for C5 at a concrete service. -/
theorem c5_linear_order_witness :
    List.Pairwise (fun a b => eventRank a ≤ eventRank b) (mainRun svcOkW).trace :=
  c5_linear_order svcOkW

/-- Witness for C8 at a concrete service. -/
theorem c8_terminates_witness :
    Config.isHalted ((step svcOkW)^[5] (Config.running mainStmts initState)) = true :=
  c8_terminates svcOkW
